import Mathlib

/-!
Shallow embedding of the tile-storage core of `bevy_tilemap`
(`src/chunk/layer.rs` and `src/chunk/raw_tile.rs`).

Modelling choices:
* Rust `f32` colour channels and attribute-buffer entries are modelled as `ℚ`;
  every value the program manipulates here (0.0, 1.0, small sprite indices
  cast with `as f32`) is exactly representable, and the code performs no
  arithmetic on them beyond copying and comparison with 0.0.
* `Vec<T>` is `List T`; `HashMap<usize, T>` is an association list
  `List (ℕ × T)` whose insert replaces any existing binding, mirroring map
  semantics (keys stay distinct when built through the operations).
* Mutating methods become functions returning the updated value.
* `Color -> [f32; 4]` (`.into()`) is the identity on the four channels, so the
  colour attribute buffer is a `List Color`.
* The `warn!` log on an out-of-bounds dense write is a side effect with no
  bearing on state and is not modelled.
-/

/-- Rust/bevy `Color`: four `f32` channels r, g, b, a (modelled as `ℚ`). -/
structure Color where
  r : ℚ
  g : ℚ
  b : ℚ
  a : ℚ
deriving DecidableEq, Repr

/-- `Color::WHITE`: fully opaque white. -/
def Color.WHITE : Color := ⟨1, 1, 1, 1⟩

/-- `RawTile` from `raw_tile.rs`: a sprite-sheet index and a colour. -/
structure RawTile where
  index : ℕ
  color : Color
deriving DecidableEq, Repr

/-- `impl Default for RawTile`: index 0, fully opaque white. -/
def RawTile.default : RawTile := ⟨0, Color.WHITE⟩

/-- `TileTrait::get_color` for `RawTile`. -/
def RawTile.get_color (t : RawTile) : Color := t.color

/-- `TileTrait::is_hidden` for `RawTile`: colour alpha equals 0.0. -/
def RawTile.is_hidden (t : RawTile) : Bool := t.color.a == 0

/-- `TileTrait::hide` for `RawTile`: set the colour alpha to 0.0. -/
def RawTile.hide (t : RawTile) : RawTile := { t with color := { t.color with a := 0 } }

/-- `TileTrait::get_index` for `RawTile`. -/
def RawTile.get_index (t : RawTile) : ℕ := t.index

/-- `Dimension3` (width, height, depth); only width and height are used here. -/
structure Dimension3 where
  width : ℕ
  height : ℕ
  depth : ℕ
deriving DecidableEq, Repr

/-- `DenseLayer<RawTile>`: a vector of tiles plus a running tile count. -/
structure DenseLayer where
  tiles : List RawTile
  tile_count : ℕ
deriving DecidableEq, Repr

/-- `DenseLayer::new(tiles)`: wraps the vector, `tile_count` starts at 0. -/
def DenseLayer.new (tiles : List RawTile) : DenseLayer :=
  { tiles := tiles, tile_count := 0 }

/-- `DenseLayer::set_tile`: if `index` is in bounds, increment `tile_count`
and overwrite the slot; otherwise only log a warning (no state change). -/
def DenseLayer.set_tile (l : DenseLayer) (index : ℕ) (tile : RawTile) : DenseLayer :=
  match l.tiles.get? index with
  | some _ => { tiles := l.tiles.set index tile, tile_count := l.tile_count + 1 }
  | none => l

/-- `DenseLayer::remove_tile`: if `index` is in bounds and `tile_count != 0`,
decrement `tile_count` and hide the tile in place; otherwise no change. -/
def DenseLayer.remove_tile (l : DenseLayer) (index : ℕ) : DenseLayer :=
  match l.tiles.get? index with
  | some tile =>
    if l.tile_count ≠ 0 then
      { tiles := l.tiles.set index tile.hide, tile_count := l.tile_count - 1 }
    else l
  | none => l

/-- `DenseLayer::get_tile`: the slot's tile, filtered to `None` when hidden. -/
def DenseLayer.get_tile (l : DenseLayer) (index : ℕ) : Option RawTile :=
  (l.tiles.get? index).bind (fun tile => if tile.is_hidden then none else some tile)

/-- `DenseLayer::clear`: `self.tiles.clear()` only; `tile_count` untouched. -/
def DenseLayer.clear (l : DenseLayer) : DenseLayer :=
  { l with tiles := [] }

/-- `HashMap::insert`: replace any existing binding for the key. -/
def mapInsert (m : List (ℕ × RawTile)) (k : ℕ) (v : RawTile) : List (ℕ × RawTile) :=
  (k, v) :: m.filter (fun p => !(p.1 == k))

/-- `HashMap::remove`: drop the binding for the key, if any. -/
def mapRemove (m : List (ℕ × RawTile)) (k : ℕ) : List (ℕ × RawTile) :=
  m.filter (fun p => !(p.1 == k))

/-- `HashMap::get`: the value bound to the key, if any. -/
def mapGet (m : List (ℕ × RawTile)) (k : ℕ) : Option RawTile :=
  (m.find? (fun p => p.1 == k)).map (fun p => p.2)

/-- `SparseLayer<RawTile>`: a map from linear index to tile. -/
structure SparseLayer where
  tiles : List (ℕ × RawTile)
deriving DecidableEq, Repr

/-- `SparseLayer::new(tiles)`. -/
def SparseLayer.new (tiles : List (ℕ × RawTile)) : SparseLayer :=
  { tiles := tiles }

/-- `SparseLayer::set_tile`: if the incoming tile is hidden, first remove the
binding, then (unconditionally) insert the tile. -/
def SparseLayer.set_tile (l : SparseLayer) (index : ℕ) (tile : RawTile) : SparseLayer :=
  { tiles :=
      mapInsert (if tile.is_hidden then mapRemove l.tiles index else l.tiles) index tile }

/-- `SparseLayer::remove_tile`: delete the binding entirely. -/
def SparseLayer.remove_tile (l : SparseLayer) (index : ℕ) : SparseLayer :=
  { tiles := mapRemove l.tiles index }

/-- `SparseLayer::get_tile`: plain map lookup, no visibility filtering. -/
def SparseLayer.get_tile (l : SparseLayer) (index : ℕ) : Option RawTile :=
  mapGet l.tiles index

/-- `dense_tiles_to_attributes`: for each tile in storage order, emit its
sprite index (as float) four times and its colour four times. -/
def dense_tiles_to_attributes (tiles : List RawTile) : List ℚ × List Color :=
  (tiles.flatMap (fun tile => List.replicate 4 ((tile.get_index : ℚ))),
   tiles.flatMap (fun tile => List.replicate 4 tile.get_color))

/-- The body of the `for (index, tile) in tiles.iter()` loop of
`sparse_tiles_to_attributes`: for `i in 0..4`, bounds-checked writes of the
tile's sprite index and colour at offset `index * 4 + i` (`List.set` is a
no-op out of bounds, exactly like the `if let Some(..) = get_mut(..)` skip). -/
def writeTileAttributes (index : ℕ) (tile : RawTile)
    (bufs : List ℚ × List Color) : List ℚ × List Color :=
  (List.range 4).foldl
    (fun b i =>
      (b.1.set (index * 4 + i) ((tile.get_index : ℚ)),
       b.2.set (index * 4 + i) tile.get_color))
    bufs

/-- `sparse_tiles_to_attributes`: buffers of length `width * height * 4`
pre-filled with index 0.0 and colour (0,0,0,0), then each stored (index, tile)
pair written by `writeTileAttributes`. -/
def sparse_tiles_to_attributes (dimension : Dimension3)
    (tiles : List (ℕ × RawTile)) : List ℚ × List Color :=
  let area := dimension.width * dimension.height
  tiles.foldl (fun b p => writeTileAttributes p.1 p.2 b)
    (List.replicate (area * 4) (0 : ℚ), List.replicate (area * 4) ⟨0, 0, 0, 0⟩)

/-! ## Helper lemmas -/

/-- `writeTileAttributes` unfolded: the four bounds-checked writes. -/
theorem writeTileAttributes_eq (idx : ℕ) (t : RawTile) (b1 : List ℚ) (b2 : List Color) :
    writeTileAttributes idx t (b1, b2) =
      ((((b1.set (idx * 4 + 0) ((t.get_index : ℚ))).set (idx * 4 + 1)
          ((t.get_index : ℚ))).set (idx * 4 + 2) ((t.get_index : ℚ))).set (idx * 4 + 3)
          ((t.get_index : ℚ)),
       (((b2.set (idx * 4 + 0) t.get_color).set (idx * 4 + 1)
          t.get_color).set (idx * 4 + 2) t.get_color).set (idx * 4 + 3) t.get_color) := rfl

/-- A write step whose target slots all lie past the end of both buffers
leaves the buffers unchanged. -/
theorem writeTileAttributes_oob (idx : ℕ) (t : RawTile) (b1 : List ℚ) (b2 : List Color)
    (h1 : b1.length ≤ idx * 4) (h2 : b2.length ≤ idx * 4) :
    writeTileAttributes idx t (b1, b2) = (b1, b2) := by
  rw [writeTileAttributes_eq]
  rw [List.set_eq_of_length_le (le_trans h1 (Nat.le_add_right _ 0)),
      List.set_eq_of_length_le (le_trans h1 (Nat.le_add_right _ 1)),
      List.set_eq_of_length_le (le_trans h1 (Nat.le_add_right _ 2)),
      List.set_eq_of_length_le (le_trans h1 (Nat.le_add_right _ 3)),
      List.set_eq_of_length_le (le_trans h2 (Nat.le_add_right _ 0)),
      List.set_eq_of_length_le (le_trans h2 (Nat.le_add_right _ 1)),
      List.set_eq_of_length_le (le_trans h2 (Nat.le_add_right _ 2)),
      List.set_eq_of_length_le (le_trans h2 (Nat.le_add_right _ 3))]

/-- A write step preserves the lengths of both buffers. -/
theorem writeTileAttributes_length (idx : ℕ) (t : RawTile) (b1 : List ℚ) (b2 : List Color) :
    (writeTileAttributes idx t (b1, b2)).1.length = b1.length ∧
    (writeTileAttributes idx t (b1, b2)).2.length = b2.length := by
  rw [writeTileAttributes_eq]
  simp [List.length_set]

/-! ## Claim theorems -/

/-- C9: `DenseLayer::clear` empties the tile vector but leaves `tile_count`
unchanged at its previous value. -/
theorem dense_clear_spec (l : DenseLayer) :
    (l.clear).tiles = [] ∧ (l.clear).tile_count = l.tile_count :=
  ⟨rfl, rfl⟩

/-- C3: on a Sparse layer, `get_tile` right after `set_tile` at the same index
returns exactly the stored tile, for every tile including hidden ones —
Sparse does not filter on hidden state at read time. -/
theorem sparse_set_get_roundtrip (l : SparseLayer) (i : ℕ) (t : RawTile) :
    (l.set_tile i t).get_tile i = some t := by
  unfold SparseLayer.set_tile SparseLayer.get_tile mapGet mapInsert
  rw [List.find?_cons_of_pos _ (by simp)]
  rfl

/-- C4: `DenseLayer::get_tile` returns `some t` exactly when the slot at the
index exists, holds `t`, and `t` is not hidden; in every other case `none`. -/
theorem dense_get_tile_iff (l : DenseLayer) (i : ℕ) (t : RawTile) :
    l.get_tile i = some t ↔ l.tiles.get? i = some t ∧ t.is_hidden = false := by
  unfold DenseLayer.get_tile
  cases hg : l.tiles.get? i with
  | none => simp
  | some u =>
    simp only [Option.some_bind]
    by_cases hh : u.is_hidden
    · simp only [hh, if_true]
      constructor
      · intro hcon; exact absurd hcon (by simp)
      · rintro ⟨he, hf⟩
        obtain rfl : u = t := Option.some_inj.mp he
        rw [hh] at hf
        simp at hf
    · simp only [hh]
      rw [if_neg (by simp [hh])]
      constructor
      · intro he
        refine ⟨he, ?_⟩
        rw [← Option.some_inj.mp he]
        simpa using hh
      · exact fun hp => hp.1

/-- C1 counterexample: a Dense layer holding one visible tile but with
`tile_count = 0` (exactly the state `DenseLayer::new` produces). After
`remove_tile(0)` the tile at index 0 is still the original visible tile —
it was not marked hidden, refuting the claim that `remove_tile` always
hides the tile at an in-bounds index. -/
theorem dense_remove_tile_counterexample :
    ((DenseLayer.mk [⟨0, Color.WHITE⟩] 0).remove_tile 0).tiles.get? 0
        = some ⟨0, Color.WHITE⟩ ∧
    (⟨0, Color.WHITE⟩ : RawTile).is_hidden = false := by
  decide

/-- C1 (amended): for every Dense layer and in-bounds index, if `tile_count`
is non-zero then `remove_tile` hides the tile in place and decrements the
count; if `tile_count` is zero then `remove_tile` changes nothing at all
(in particular the count never goes below zero, and the tile is NOT hidden). -/
theorem dense_remove_tile_spec (l : DenseLayer) (i : ℕ) (t : RawTile)
    (h : l.tiles.get? i = some t) :
    (l.tile_count ≠ 0 →
      (l.remove_tile i).tiles = l.tiles.set i t.hide ∧
      (t.hide).is_hidden = true ∧
      (l.remove_tile i).tile_count = l.tile_count - 1) ∧
    (l.tile_count = 0 → l.remove_tile i = l) := by
  unfold DenseLayer.remove_tile
  rw [h]
  dsimp only
  constructor
  · intro hc
    rw [if_pos hc]
    exact ⟨rfl, by simp [RawTile.hide, RawTile.is_hidden], rfl⟩
  · intro hc
    rw [if_neg (not_not_intro hc)]

/-- Witness for C1's amended theorem at a concrete layer: one visible tile,
`tile_count = 1`; `remove_tile(0)` hides the tile and drops the count to 0. -/
theorem dense_remove_tile_spec_witness :
    ((DenseLayer.mk [⟨0, Color.WHITE⟩] 1).remove_tile 0).tiles
        = ([(⟨0, Color.WHITE⟩ : RawTile)].set 0 (RawTile.hide ⟨0, Color.WHITE⟩)) ∧
    (RawTile.hide ⟨0, Color.WHITE⟩).is_hidden = true ∧
    ((DenseLayer.mk [⟨0, Color.WHITE⟩] 1).remove_tile 0).tile_count = 1 - 1 := by
  exact (dense_remove_tile_spec (DenseLayer.mk [⟨0, Color.WHITE⟩] 1) 0 ⟨0, Color.WHITE⟩
    (by decide)).1 (by decide)

/-- C2: for every Dense layer and in-bounds index, `set_tile` overwrites the
slot in place and increments `tile_count` by exactly 1 unconditionally, for
every tile and every prior occupant (visible or hidden); consequently, on a
concrete layer, setting the same visible tile twice leaves `tile_count = 2`
while only 1 visible tile is stored, so `tile_count` is not a reliable count
of visible tiles. -/
theorem dense_set_tile_increments (l : DenseLayer) (i : ℕ) (t : RawTile)
    (h : i < l.tiles.length) :
    ((l.set_tile i t).tiles = l.tiles.set i t ∧
     (l.set_tile i t).tile_count = l.tile_count + 1) ∧
    (((DenseLayer.new [⟨0, Color.WHITE⟩]).set_tile 0 ⟨0, Color.WHITE⟩).set_tile 0
        ⟨0, Color.WHITE⟩).tile_count = 2 ∧
    ((((DenseLayer.new [⟨0, Color.WHITE⟩]).set_tile 0 ⟨0, Color.WHITE⟩).set_tile 0
        ⟨0, Color.WHITE⟩).tiles.filter (fun x => !x.is_hidden)).length = 1 := by
  refine ⟨?_, by decide, by decide⟩
  have hg : l.tiles.get? i = some (l.tiles.get ⟨i, h⟩) := List.get?_eq_some.mpr ⟨h, rfl⟩
  unfold DenseLayer.set_tile
  rw [hg]
  exact ⟨rfl, rfl⟩

/-- Witness for C2 at a concrete layer: overwriting the single (visible)
slot of a one-tile layer with a hidden tile still bumps `tile_count`. -/
theorem dense_set_tile_increments_witness :
    ((DenseLayer.mk [⟨0, Color.WHITE⟩] 5).set_tile 0 ⟨3, ⟨1, 1, 1, 0⟩⟩).tiles
        = ([(⟨0, Color.WHITE⟩ : RawTile)].set 0 ⟨3, ⟨1, 1, 1, 0⟩⟩) ∧
    ((DenseLayer.mk [⟨0, Color.WHITE⟩] 5).set_tile 0 ⟨3, ⟨1, 1, 1, 0⟩⟩).tile_count
        = 5 + 1 := by
  exact (dense_set_tile_increments (DenseLayer.mk [⟨0, Color.WHITE⟩] 5) 0
    ⟨3, ⟨1, 1, 1, 0⟩⟩ (by decide)).1

/-- C5: for every Dense layer, an out-of-bounds `set_tile` is a complete
no-op: the layer value (tile vector, every stored tile, and `tile_count`)
is unchanged, and no error is surfaced (the operation returns normally). -/
theorem dense_set_tile_oob (l : DenseLayer) (i : ℕ) (t : RawTile)
    (h : l.tiles.length ≤ i) : l.set_tile i t = l := by
  unfold DenseLayer.set_tile
  rw [List.get?_eq_none.mpr h]

/-- Witness for C5: writing index 5 into a one-tile dense layer changes
nothing. -/
theorem dense_set_tile_oob_witness :
    (DenseLayer.mk [⟨0, Color.WHITE⟩] 0).set_tile 5 ⟨7, ⟨1, 0, 0, 1⟩⟩
        = DenseLayer.mk [⟨0, Color.WHITE⟩] 0 := by
  exact dense_set_tile_oob (DenseLayer.mk [⟨0, Color.WHITE⟩] 0) 5 ⟨7, ⟨1, 0, 0, 1⟩⟩
    (by decide)

/-- The fold over the stored pairs preserves the lengths of both buffers. -/
theorem sparse_foldl_length (ts : List (ℕ × RawTile)) (b : List ℚ × List Color) :
    ((ts.foldl (fun b p => writeTileAttributes p.1 p.2 b) b).1.length = b.1.length ∧
     (ts.foldl (fun b p => writeTileAttributes p.1 p.2 b) b).2.length = b.2.length) := by
  induction ts generalizing b with
  | nil => exact ⟨rfl, rfl⟩
  | cons p ps ih =>
    simp only [List.foldl_cons]
    obtain ⟨b1, b2⟩ := b
    obtain ⟨hw1, hw2⟩ := writeTileAttributes_length p.1 p.2 b1 b2
    obtain ⟨ih1, ih2⟩ := ih (writeTileAttributes p.1 p.2 (b1, b2))
    exact ⟨ih1.trans hw1, ih2.trans hw2⟩

/-- Emitting 4 copies per element quadruples the length. -/
theorem length_flatMap_replicate {α β : Type} (l : List α) (f : α → β) :
    (l.flatMap (fun a => List.replicate 4 (f a))).length = l.length * 4 := by
  induction l with
  | nil => rfl
  | cons x xs ih =>
    simp only [List.flatMap_cons, List.length_append, List.length_replicate, ih,
      List.length_cons]
    omega

/-- C6: if every stored pair of a Sparse layer sits at a linear index at or
beyond `width * height`, sparse flattening returns the untouched default
buffers of length `width * height * 4` (sprite index 0.0, colour (0,0,0,0)):
every out-of-grid write is silently dropped, with no error. -/
theorem sparse_flatten_all_oob (dimension : Dimension3) (tiles : List (ℕ × RawTile))
    (h : ∀ p ∈ tiles, dimension.width * dimension.height ≤ p.1) :
    sparse_tiles_to_attributes dimension tiles =
      (List.replicate (dimension.width * dimension.height * 4) (0 : ℚ),
       List.replicate (dimension.width * dimension.height * 4)
         (⟨0, 0, 0, 0⟩ : Color)) := by
  unfold sparse_tiles_to_attributes
  induction tiles with
  | nil => rfl
  | cons p ps ih =>
    simp only [List.foldl_cons]
    have hp : dimension.width * dimension.height ≤ p.1 := h p (List.mem_cons_self _ _)
    have hle : dimension.width * dimension.height * 4 ≤ p.1 * 4 :=
      Nat.mul_le_mul_right 4 hp
    rw [writeTileAttributes_oob p.1 p.2 _ _
      (by rw [List.length_replicate]; exact hle)
      (by rw [List.length_replicate]; exact hle)]
    exact ih (fun q hq => h q (List.mem_cons_of_mem _ hq))

/-- Witness for C6 at the spec's scenario: a single tile at linear index 5
with dimension 2 × 2 (area 4) flattens to 16 default entries in each buffer. -/
theorem sparse_flatten_all_oob_witness :
    sparse_tiles_to_attributes ⟨2, 2, 1⟩ [(5, ⟨7, ⟨1, 0, 0, 1⟩⟩)]
      = (List.replicate 16 (0 : ℚ), List.replicate 16 (⟨0, 0, 0, 0⟩ : Color)) := by
  exact sparse_flatten_all_oob ⟨2, 2, 1⟩ [(5, ⟨7, ⟨1, 0, 0, 1⟩⟩)] (by decide)

/-- C7: dense flattening yields two buffers of length (number of stored
tiles) × 4; sparse flattening yields two buffers of length
`width * height * 4`, independent of how many pairs are stored. -/
theorem tiles_to_attributes_lengths (tiles : List RawTile)
    (dimension : Dimension3) (pairs : List (ℕ × RawTile)) :
    (dense_tiles_to_attributes tiles).1.length = tiles.length * 4 ∧
    (dense_tiles_to_attributes tiles).2.length = tiles.length * 4 ∧
    (sparse_tiles_to_attributes dimension pairs).1.length
        = dimension.width * dimension.height * 4 ∧
    (sparse_tiles_to_attributes dimension pairs).2.length
        = dimension.width * dimension.height * 4 := by
  refine ⟨length_flatMap_replicate tiles _, length_flatMap_replicate tiles _, ?_, ?_⟩
  · unfold sparse_tiles_to_attributes
    rw [(sparse_foldl_length pairs _).1, List.length_replicate]
  · unfold sparse_tiles_to_attributes
    rw [(sparse_foldl_length pairs _).2, List.length_replicate]

/-- Reading back any of the four consecutive slots `p..p+3` just written with
the same value yields that value, provided the last slot is in bounds. -/
theorem get_set_quad {α : Type} (l : List α) (a : α) (p : ℕ) (k : ℕ) (hk : k < 4)
    (hlen : p + 3 < l.length) :
    ((((l.set (p + 0) a).set (p + 1) a).set (p + 2) a).set (p + 3) a).get? (p + k)
      = some a := by
  interval_cases k
  · rw [List.get?_set_ne _ _ (by omega), List.get?_set_ne _ _ (by omega),
        List.get?_set_ne _ _ (by omega)]
    exact List.get?_set_eq_of_lt _ (by omega)
  · rw [List.get?_set_ne _ _ (by omega), List.get?_set_ne _ _ (by omega)]
    exact List.get?_set_eq_of_lt _ (by simp only [List.length_set]; omega)
  · rw [List.get?_set_ne _ _ (by omega)]
    exact List.get?_set_eq_of_lt _ (by simp only [List.length_set]; omega)
  · exact List.get?_set_eq_of_lt _ (by simp only [List.length_set]; omega)

/-- C10: in sparse flattening's per-tile write step, the write is
all-or-nothing: on buffers sized `width * height * 4`, an in-grid index gets
the tile's sprite index and colour into all four slots `index*4 .. index*4+3`,
and an out-of-grid index writes none of them (the buffers are untouched) — a
tile is never partially written. -/
theorem sparse_write_all_or_nothing (dimension : Dimension3) (idx : ℕ) (t : RawTile)
    (b1 : List ℚ) (b2 : List Color)
    (h1 : b1.length = dimension.width * dimension.height * 4)
    (h2 : b2.length = dimension.width * dimension.height * 4) :
    (idx < dimension.width * dimension.height →
      ∀ k, k < 4 →
        (writeTileAttributes idx t (b1, b2)).1.get? (idx * 4 + k)
            = some ((t.get_index : ℚ)) ∧
        (writeTileAttributes idx t (b1, b2)).2.get? (idx * 4 + k)
            = some t.get_color) ∧
    (dimension.width * dimension.height ≤ idx →
      writeTileAttributes idx t (b1, b2) = (b1, b2)) := by
  obtain ⟨A, hA⟩ : ∃ A, dimension.width * dimension.height = A := ⟨_, rfl⟩
  rw [hA] at h1 h2 ⊢
  constructor
  · intro hidx k hk
    rw [writeTileAttributes_eq]
    exact ⟨get_set_quad b1 _ (idx * 4) k hk (by omega),
           get_set_quad b2 _ (idx * 4) k hk (by omega)⟩
  · intro hge
    exact writeTileAttributes_oob idx t b1 b2
      (by rw [h1]; exact Nat.mul_le_mul_right 4 hge)
      (by rw [h2]; exact Nat.mul_le_mul_right 4 hge)

/-- Witness for C10, both branches: on 2 × 2 (area 4) default buffers,
writing index 1 lands in slot 1*4+2, and writing index 9 changes nothing. -/
theorem sparse_write_all_or_nothing_witness :
    ((writeTileAttributes 1 (⟨7, ⟨1, 0, 0, 1⟩⟩ : RawTile)
        (List.replicate 16 (0 : ℚ), List.replicate 16 (⟨0, 0, 0, 0⟩ : Color))).1.get?
        (1 * 4 + 2) = some ((RawTile.get_index ⟨7, ⟨1, 0, 0, 1⟩⟩ : ℚ)) ∧
     (writeTileAttributes 1 (⟨7, ⟨1, 0, 0, 1⟩⟩ : RawTile)
        (List.replicate 16 (0 : ℚ), List.replicate 16 (⟨0, 0, 0, 0⟩ : Color))).2.get?
        (1 * 4 + 2) = some (RawTile.get_color ⟨7, ⟨1, 0, 0, 1⟩⟩)) ∧
    writeTileAttributes 9 (⟨7, ⟨1, 0, 0, 1⟩⟩ : RawTile)
        (List.replicate 16 (0 : ℚ), List.replicate 16 (⟨0, 0, 0, 0⟩ : Color))
      = (List.replicate 16 (0 : ℚ), List.replicate 16 (⟨0, 0, 0, 0⟩ : Color)) := by
  constructor
  · exact (sparse_write_all_or_nothing ⟨2, 2, 1⟩ 1 ⟨7, ⟨1, 0, 0, 1⟩⟩ _ _
      (by decide) (by decide)).1 (by decide) 2 (by decide)
  · exact (sparse_write_all_or_nothing ⟨2, 2, 1⟩ 9 ⟨7, ⟨1, 0, 0, 1⟩⟩ _ _
      (by decide) (by decide)).2 (by decide)

/-- C8: the spec's dense scenario. The hidden default tile is
`RawTile.default` after `hide()`, i.e. index 0 with colour (1,1,1,0). A dense
layer of 4 tiles whose index-2 tile is {sprite 7, colour (1,0,0,1)} and whose
other tiles are the hidden default flattens to 16-entry buffers: sprite-index
entries 8..11 equal 7.0 and all others 0.0; colour entries 8..11 equal
(1,0,0,1) and all others the hidden default colour (1,1,1,0) — hidden cells
still emit their data, 4 consecutive entries per cell in storage order. -/
theorem dense_flatten_scenario :
    RawTile.hide RawTile.default = ⟨0, ⟨1, 1, 1, 0⟩⟩ ∧
    (RawTile.hide RawTile.default).is_hidden = true ∧
    dense_tiles_to_attributes
        [⟨0, ⟨1, 1, 1, 0⟩⟩, ⟨0, ⟨1, 1, 1, 0⟩⟩, ⟨7, ⟨1, 0, 0, 1⟩⟩, ⟨0, ⟨1, 1, 1, 0⟩⟩]
      = ([0, 0, 0, 0, 0, 0, 0, 0, 7, 7, 7, 7, 0, 0, 0, 0],
         [⟨1, 1, 1, 0⟩, ⟨1, 1, 1, 0⟩, ⟨1, 1, 1, 0⟩, ⟨1, 1, 1, 0⟩,
          ⟨1, 1, 1, 0⟩, ⟨1, 1, 1, 0⟩, ⟨1, 1, 1, 0⟩, ⟨1, 1, 1, 0⟩,
          ⟨1, 0, 0, 1⟩, ⟨1, 0, 0, 1⟩, ⟨1, 0, 0, 1⟩, ⟨1, 0, 0, 1⟩,
          ⟨1, 1, 1, 0⟩, ⟨1, 1, 1, 0⟩, ⟨1, 1, 1, 0⟩, ⟨1, 1, 1, 0⟩]) := by
  decide
